import Mathlib

/-!
Verification development for the MCP_ORACLE_SCM core: the OAuth token
lifecycle manager (`mcp_oracle_scm/common/auth.py`) and the BI-report
retrieval pipeline (`mcp_oracle_scm/common/report_service.py`).

The Python source is shallowly embedded: pure functions become Lean
functions, stateful methods become explicit state-passing functions, the
network and the OS keychain become explicit inputs/outputs, and Python
exceptions become `Except`/`Option` results.  Time is modelled at integer
seconds (`Int`): Python uses floats for `time.time()` and `expires_in`,
but every comparison in the source uses integer margins (300 seconds) and
no verified property depends on sub-second or non-integral values.
-/

deriving instance DecidableEq for Except

namespace OracleSCM

/-! ## Python truthiness helpers -/

/-- Truthiness of an optional Python string: `None` and `""` are falsy. -/
def pyTruthyStr : Option String → Bool
  | none => false
  | some s => !s.isEmpty

/-- Truthiness of an optional Python float (modelled as `Int`):
`None` and `0.0` are falsy. -/
def pyTruthyFloat : Option Int → Bool
  | none => false
  | some v => decide (v ≠ 0)

/-- `str()` applied to the value stored in the expiry slot by
`save_to_keychain` (`str(expiry_time)` in the source): `str(None)` is the
literal string `"None"`, and an integral Python float `n.0` prints as
`"n.0"`. -/
def pyFloatStr : Option Int → String
  | none => "None"
  | some n => toString n ++ ".0"

/-- Decimal-digit test for the `float()` model. -/
def isDecDigit (c : Char) : Bool := decide ('0' ≤ c) && decide (c ≤ '9')

/-- Value of a list of decimal digits (most significant first). -/
def digitsVal : List Char → Nat
  | [] => 0
  | c :: cs => (c.toNat - '0'.toNat) * 10 ^ cs.length + digitsVal cs

/-- Model of Python `float(s)` restricted to the integral values this
system stores: accepts optional surrounding spaces, an optional sign,
a non-empty digit string, and an optional fractional part whose digits
are all `0` (the only fractional parts the model produces).  Any other
string — in particular the literal `"None"` — raises `ValueError`,
modelled as `none`. -/
def pyFloatParse (s : String) : Option Int :=
  let cs := ((s.data.dropWhile (· = ' ')).reverse.dropWhile (· = ' ')).reverse
  let (neg, cs) := match cs with
    | '-' :: t => (true, t)
    | '+' :: t => (false, t)
    | t => (false, t)
  let intPart := cs.takeWhile isDecDigit
  let rest := cs.dropWhile isDecDigit
  let ok : Bool :=
    match rest with
    | [] => !intPart.isEmpty
    | '.' :: frac => (!intPart.isEmpty || !frac.isEmpty) &&
        frac.all (fun c => isDecDigit c) && frac.all (· = '0')
    | _ => false
  if ok then
    let v : Int := Int.ofNat (digitsVal intPart)
    some (if neg then -v else v)
  else none

/-! ## Credential store and in-memory auth state

`OracleAuth` keeps `access_token`, `token_expiry`, `refresh_token` as
instance attributes; the keychain holds three string-valued secrets under
service `"mcp_oracle"`. -/

/-- The three `keyring` entries used by the source
(`oauth_token`, `oauth_token_expiry`, `oauth_refresh_token`);
`none` means the entry is absent from the store. -/
structure Keychain where
  oauth_token : Option String
  oauth_token_expiry : Option String
  oauth_refresh_token : Option String
deriving DecidableEq

/-- The in-memory token state of an `OracleAuth` instance. -/
structure AuthState where
  access_token : Option String
  token_expiry : Option Int
  refresh_token : Option String
deriving DecidableEq

/-- A successful token-endpoint JSON body: `access_token` is mandatory
(`token_data['access_token']` raises otherwise), `expires_in` and
`refresh_token` are optional keys. -/
structure TokenData where
  access_token : String
  expires_in : Option Int
  refresh_token : Option String
deriving DecidableEq

/-- Observable side effects of the token lifecycle functions. -/
inductive AuthEvent where
  | memoryCacheHit
  | keychainCacheHit
  | refreshEntered
  | netRefreshPost
  | netTokenPost
  | authServerStarted
deriving DecidableEq

/-- The environment a `get_connection` run interacts with: the current
time, the token endpoint's reply to a refresh POST, the callback-code
schedule seen by the local listener (value of
`OAuthCallbackHandler.auth_code` at poll second `t`), and the token
endpoint's reply to the authorization-code exchange POST. -/
structure World where
  now : Int
  refreshResp : Except String TokenData
  codeAt : Nat → Option String
  exchangeResp : Except String TokenData

/-- `OracleAuth.save_to_keychain`: unconditionally writes the token and
`str(expiry_time)`; writes the refresh token only when it is truthy
(`if refresh_token:`), otherwise the stored entry is left untouched. -/
def save_to_keychain (kc : Keychain) (token : String) (expiry_time : Option Int)
    (refresh_token : Option String) : Keychain :=
  { oauth_token := some token
    oauth_token_expiry := some (pyFloatStr expiry_time)
    oauth_refresh_token :=
      if pyTruthyStr refresh_token then refresh_token else kc.oauth_refresh_token }

/-- `OracleAuth.load_from_keychain`: reads the three entries, then
converts the expiry with `float(expiry_str) if expiry_str else None`.
A `ValueError` from `float` is caught by the surrounding `try` and the
whole call returns `(None, None, None)`. -/
def load_from_keychain (kc : Keychain) : Option String × Option Int × Option String :=
  match kc.oauth_token_expiry with
  | none => (kc.oauth_token, none, kc.oauth_refresh_token)
  | some s =>
    if s.isEmpty then (kc.oauth_token, none, kc.oauth_refresh_token)
    else
      match pyFloatParse s with
      | some e => (kc.oauth_token, some e, kc.oauth_refresh_token)
      | none => (none, none, none)

/-- `OracleAuth.clear_keychain`: three sequential `keyring.delete_password`
calls inside a single `try`.  `delete_password` raises when the entry is
absent, and the shared `except` then skips the remaining deletes, so a
missing earlier entry leaves the later entries in place. -/
def clear_keychain (kc : Keychain) : Keychain :=
  match kc.oauth_token with
  | none => kc
  | some _ =>
    let kc1 : Keychain := { kc with oauth_token := none }
    match kc1.oauth_token_expiry with
    | none => kc1
    | some _ =>
      let kc2 : Keychain := { kc1 with oauth_token_expiry := none }
      match kc2.oauth_refresh_token with
      | none => kc2
      | some _ => { kc2 with oauth_refresh_token := none }

/-- Result of `refresh_access_token` / `get_token`: the returned value
plus the final instance state, keychain, and emitted events. -/
structure RefreshOut where
  result : Option String
  state : AuthState
  keychain : Keychain
  events : List AuthEvent
deriving DecidableEq

/-- `OracleAuth.refresh_access_token`: takes the refresh token from the
instance if truthy, otherwise from the keychain; returns `None` without
any network call when neither is available.  On a token-endpoint failure
it nulls the in-memory state, calls `clear_keychain`, and returns `None`;
on success it updates state, saves to the keychain, and returns the new
access token. -/
def refresh_access_token (st : AuthState) (kc : Keychain) (w : World) : RefreshOut :=
  let rt := if pyTruthyStr st.refresh_token then st.refresh_token
            else (load_from_keychain kc).2.2
  if !pyTruthyStr rt then
    { result := none, state := st, keychain := kc, events := [.refreshEntered] }
  else
    match w.refreshResp with
    | .error _ =>
      { result := none
        state := { access_token := none, token_expiry := none, refresh_token := none }
        keychain := clear_keychain kc
        events := [.refreshEntered, .netRefreshPost] }
    | .ok td =>
      let st1 : AuthState := { st with access_token := some td.access_token }
      let st2 : AuthState :=
        match td.expires_in with
        | some ei => { st1 with token_expiry := some (w.now + ei) }
        | none => st1
      let st3 : AuthState :=
        match td.refresh_token with
        | some r => { st2 with refresh_token := some r }
        | none => st2
      let kc2 := save_to_keychain kc td.access_token st3.token_expiry
        (if td.refresh_token.isSome then st3.refresh_token else none)
      { result := some td.access_token, state := st3, keychain := kc2
        events := [.refreshEntered, .netRefreshPost] }

/-- Result of `get_token`: the `token_data` or the raised exception, plus
final state, keychain, events. -/
structure GetTokenOut where
  result : Except String TokenData
  state : AuthState
  keychain : Keychain
  events : List AuthEvent
deriving DecidableEq

/-- `OracleAuth.get_token`: POSTs the code exchange; a request failure
propagates (`raise`).  On success it stores the access token, sets the
expiry only when `expires_in` is present (otherwise the previous
`self.token_expiry` is kept, possibly `None`), stores the refresh token
when the key is present, and saves everything to the keychain. -/
def get_token (st : AuthState) (kc : Keychain) (w : World)
    (_auth_code _code_verifier : String) : GetTokenOut :=
  match w.exchangeResp with
  | .error e =>
    { result := .error e, state := st, keychain := kc, events := [.netTokenPost] }
  | .ok td =>
    let st1 : AuthState := { st with access_token := some td.access_token }
    let st2 : AuthState :=
      match td.expires_in with
      | some ei => { st1 with token_expiry := some (w.now + ei) }
      | none => st1
    let st3 : AuthState :=
      match td.refresh_token with
      | some r => { st2 with refresh_token := some r }
      | none => st2
    let kc2 := save_to_keychain kc td.access_token st3.token_expiry
      (if td.refresh_token.isSome then st3.refresh_token else none)
    { result := .ok td, state := st3, keychain := kc2, events := [.netTokenPost] }

/-! ## PKCE challenge generator -/

/-- The verifier alphabet of `generate_code_verifier`:
`string.ascii_letters + string.digits + "-._~"` (66 characters). -/
def pkceChars : List Char :=
  ("abcdefghijklmnopqrstuvwxyzABCDEFGHIJKLMNOPQRSTUVWXYZ0123456789-._~").data

theorem pkceChars_length : pkceChars.length = 66 := rfl

/-- `generate_code_verifier`: 128 draws of `secrets.choice(chars)`.  The
cryptographic random source is modelled as the sequence `draws` of chosen
indices into the alphabet. -/
def generate_code_verifier (draws : Nat → Fin 66) : String :=
  ⟨(List.range 128).map fun i => pkceChars.get (Fin.cast pkceChars_length.symm (draws i))⟩

/-! ## Local callback listener wait loop

`start_auth_server` starts the HTTP listener on 127.0.0.1:3009, opens the
browser, and then polls `OAuthCallbackHandler.auth_code` once per second
(`time.sleep(1)`); when `time.time() - start_time > 300` it shuts the
server down and raises `TimeoutError`.  Poll `t` happens `t` seconds
after the start, so the timeout check first fires at poll `t = 301`. -/

/-- One poll loop of the wait: check the captured code, then the timeout,
then sleep.  `fuel` bounds the recursion; the caller supplies 302 which
is enough for the timeout branch to fire (`authPoll_some`), so the
`none` (out-of-fuel) result never occurs from the real entry point.
Returns the loop outcome and the poll index at which it exited. -/
def authPoll (codeAt : Nat → Option String) : Nat → Nat → Option (Except String String × Nat)
  | 0, _ => none
  | fuel + 1, t =>
    match codeAt t with
    | some c => some (.ok c, t)
    | none =>
      if 300 < t then some (.error "Authorization timed out after 5 minutes", t)
      else authPoll codeAt fuel (t + 1)

/-- Outcome of one `start_auth_server` call. -/
structure AuthServerRun where
  result : Except String (String × String)
  serverStopped : Bool
  elapsed : Nat
deriving DecidableEq

/-- `OracleAuth.start_auth_server`: starts the listener, generates the
PKCE pair, opens the browser, and waits for the callback.  Both exits of
the wait loop (code captured, timeout) call `server.shutdown()` before
returning/raising, so `serverStopped` is `true` in either case. -/
def start_auth_server (codeAt : Nat → Option String) (draws : Nat → Fin 66) :
    Option AuthServerRun :=
  let code_verifier := generate_code_verifier draws
  match authPoll codeAt 302 0 with
  | none => none
  | some (.ok c, t) => some { result := .ok (c, code_verifier), serverStopped := true, elapsed := t }
  | some (.error e, t) => some { result := .error e, serverStopped := true, elapsed := t }

/-! ## get_connection -/

/-- Result of a `get_connection` call: `.ok none` models a `None` return,
`.error` a propagated exception. -/
structure ConnResult where
  result : Except String (Option String)
  state : AuthState
  keychain : Keychain
  events : List AuthEvent
deriving DecidableEq

/-- `OracleAuth.get_connection`: (1) in-memory token if truthy and
`time.time() < token_expiry - 300`; (2) keychain token under the same
300-second margin, promoted to the instance; (3) `refresh_access_token`;
(4) full interactive flow, whose exceptions are caught
(`except Exception: ... return None`). -/
def get_connection (st : AuthState) (kc : Keychain) (w : World) (draws : Nat → Fin 66) :
    Option ConnResult :=
  if pyTruthyStr st.access_token && pyTruthyFloat st.token_expiry &&
      decide (w.now < st.token_expiry.getD 0 - 300) then
    some { result := .ok st.access_token, state := st, keychain := kc
           events := [.memoryCacheHit] }
  else
    let (token, expiry, _) := load_from_keychain kc
    if pyTruthyStr token && pyTruthyFloat expiry &&
        decide (w.now < expiry.getD 0 - 300) then
      some { result := .ok token
             state := { st with access_token := token, token_expiry := expiry }
             keychain := kc, events := [.keychainCacheHit] }
    else
      let r := refresh_access_token st kc w
      if pyTruthyStr r.result then
        some { result := .ok r.result, state := r.state, keychain := r.keychain
               events := r.events }
      else
        match start_auth_server w.codeAt draws with
        | none => none
        | some run =>
          match run.result with
          | .error _ =>
            some { result := .ok none, state := r.state, keychain := r.keychain
                   events := r.events ++ [.authServerStarted] }
          | .ok (code, verifier) =>
            let g := get_token r.state r.keychain w code verifier
            match g.result with
            | .error _ =>
              some { result := .ok none, state := g.state, keychain := g.keychain
                     events := r.events ++ [.authServerStarted] ++ g.events }
            | .ok td =>
              some { result := .ok (some td.access_token), state := g.state
                     keychain := g.keychain
                     events := r.events ++ [.authServerStarted] ++ g.events }

/-! ## SHA-256 (`hashlib.sha256`)

Bytes are `Nat`s below 256; 32-bit words are `Nat`s reduced mod `2 ^ 32`
at every operation. -/

/-- 32-bit truncation. -/
def m32 (n : Nat) : Nat := n % 4294967296

/-- 32-bit right rotation. -/
def rotr32 (n x : Nat) : Nat := m32 ((x >>> n) ||| (x <<< (32 - n)))

/-- The SHA-256 round constants (decimal). -/
def sha256K : List Nat :=
  [1116352408, 1899447441, 3049323471, 3921009573, 961987163, 1508970993,
   2453635748, 2870763221, 3624381080, 310598401, 607225278, 1426881987,
   1925078388, 2162078206, 2614888103, 3248222580, 3835390401, 4022224774,
   264347078, 604807628, 770255983, 1249150122, 1555081692, 1996064986,
   2554220882, 2821834349, 2952996808, 3210313671, 3336571891, 3584528711,
   113926993, 338241895, 666307205, 773529912, 1294757372, 1396182291,
   1695183700, 1986661051, 2177026350, 2456956037, 2730485921, 2820302411,
   3259730800, 3345764771, 3516065817, 3600352804, 4094571909, 275423344,
   430227734, 506948616, 659060556, 883997877, 958139571, 1322822218,
   1537002063, 1747873779, 1955562222, 2024104815, 2227730452, 2361852424,
   2428436474, 2756734187, 3204031479, 3329325298]

/-- The SHA-256 initial hash value (decimal). -/
def sha256H0 : List Nat :=
  [1779033703, 3144134277, 1013904242, 2773480762,
   1359893119, 2600822924, 528734635, 1541459225]

/-- Big-endian 8-byte encoding of a natural number. -/
def be64 (n : Nat) : List Nat :=
  [n >>> 56 % 256, n >>> 48 % 256, n >>> 40 % 256, n >>> 32 % 256,
   n >>> 24 % 256, n >>> 16 % 256, n >>> 8 % 256, n % 256]

/-- SHA-256 message padding: append `0x80`, zero bytes to 56 mod 64, and
the 64-bit big-endian bit length. -/
def sha256Pad (msg : List Nat) : List Nat :=
  let L := msg.length
  let padZeros := (119 - L % 64) % 64
  msg ++ [0x80] ++ List.replicate padZeros 0 ++ be64 (L * 8)

/-- Parse a 64-byte block into 16 big-endian 32-bit words. -/
def words16 : List Nat → List Nat
  | b0 :: b1 :: b2 :: b3 :: rest =>
    (b0 <<< 24 + b1 <<< 16 + b2 <<< 8 + b3) :: words16 rest
  | _ => []

/-- Extend the 16-word schedule with `n` further words. -/
def sha256Extend (w : List Nat) : Nat → List Nat
  | 0 => w
  | n + 1 =>
    let i := w.length
    let w15 := w.getD (i - 15) 0
    let w2 := w.getD (i - 2) 0
    let s0 := (rotr32 7 w15) ^^^ (rotr32 18 w15) ^^^ (w15 >>> 3)
    let s1 := (rotr32 17 w2) ^^^ (rotr32 19 w2) ^^^ (w2 >>> 10)
    sha256Extend (w ++ [m32 (w.getD (i - 16) 0 + s0 + w.getD (i - 7) 0 + s1)]) n

/-- The eight SHA-256 working registers. -/
structure Sha256Regs where
  a : Nat
  b : Nat
  c : Nat
  d : Nat
  e : Nat
  f : Nat
  g : Nat
  h : Nat
deriving DecidableEq

/-- One compression round with round constant `ki` and schedule word `wi`. -/
def sha256Round (r : Sha256Regs) (kw : Nat × Nat) : Sha256Regs :=
  let S1 := (rotr32 6 r.e) ^^^ (rotr32 11 r.e) ^^^ (rotr32 25 r.e)
  let ch := (r.e &&& r.f) ^^^ ((4294967295 - r.e) &&& r.g)
  let temp1 := m32 (r.h + S1 + ch + kw.1 + kw.2)
  let S0 := (rotr32 2 r.a) ^^^ (rotr32 13 r.a) ^^^ (rotr32 22 r.a)
  let maj := (r.a &&& r.b) ^^^ (r.a &&& r.c) ^^^ (r.b &&& r.c)
  let temp2 := m32 (S0 + maj)
  { a := m32 (temp1 + temp2), b := r.a, c := r.b, d := r.c
    e := m32 (r.d + temp1), f := r.e, g := r.f, h := r.g }

/-- Compress one 64-byte block into the running hash (8 words). -/
def sha256Block (hs : List Nat) (block : List Nat) : List Nat :=
  let w := sha256Extend (words16 block) 48
  let init : Sha256Regs :=
    { a := hs.getD 0 0, b := hs.getD 1 0, c := hs.getD 2 0, d := hs.getD 3 0
      e := hs.getD 4 0, f := hs.getD 5 0, g := hs.getD 6 0, h := hs.getD 7 0 }
  let r := (List.zip sha256K w).foldl sha256Round init
  [m32 (hs.getD 0 0 + r.a), m32 (hs.getD 1 0 + r.b), m32 (hs.getD 2 0 + r.c),
   m32 (hs.getD 3 0 + r.d), m32 (hs.getD 4 0 + r.e), m32 (hs.getD 5 0 + r.f),
   m32 (hs.getD 6 0 + r.g), m32 (hs.getD 7 0 + r.h)]

/-- Split a byte list into 64-byte blocks (`fuel`-bounded recursion; the
caller passes the list length as fuel, which always suffices). -/
def toBlocks : Nat → List Nat → List (List Nat)
  | 0, _ => []
  | _, [] => []
  | fuel + 1, l => l.take 64 :: toBlocks fuel (l.drop 64)

/-- Big-endian 4-byte decomposition of a 32-bit word. -/
def be32 (n : Nat) : List Nat :=
  [n >>> 24 % 256, n >>> 16 % 256, n >>> 8 % 256, n % 256]

/-- `hashlib.sha256(msg).digest()`: the 32-byte SHA-256 digest. -/
def sha256 (msg : List Nat) : List Nat :=
  let padded := sha256Pad msg
  let hs := (toBlocks padded.length padded).foldl sha256Block sha256H0
  (hs.map be32).flatten

/-! ## Base64 (`base64.b64encode` / `base64.b64decode`) -/

/-- The standard base64 alphabet. -/
def b64Alphabet : List Char :=
  ("ABCDEFGHIJKLMNOPQRSTUVWXYZabcdefghijklmnopqrstuvwxyz0123456789+/").data

/-- Character for a 6-bit group. -/
def b64Char (n : Nat) : Char := b64Alphabet.getD (n % 64) 'A'

/-- Base64-encode a byte list (with `=` padding). -/
def b64encodeList : List Nat → List Char
  | [] => []
  | [a] =>
    [b64Char (a >>> 2), b64Char ((a % 4) <<< 4), '=', '=']
  | [a, b] =>
    [b64Char (a >>> 2), b64Char ((a % 4) <<< 4 + b >>> 4), b64Char ((b % 16) <<< 2), '=']
  | a :: b :: c :: rest =>
    b64Char (a >>> 2) :: b64Char ((a % 4) <<< 4 + b >>> 4) ::
    b64Char ((b % 16) <<< 2 + c >>> 6) :: b64Char (c % 64) :: b64encodeList rest

/-- `base64.b64encode(bs).decode()` as a string. -/
def b64encode (bs : List Nat) : String := ⟨b64encodeList bs⟩

/-- Index of a character in the base64 alphabet. -/
def b64Index (c : Char) : Option Nat := b64Alphabet.indexOf? c

/-- Decode a list of 6-bit groups (already stripped of padding) into
bytes: a trailing group of 2 yields 1 byte, of 3 yields 2 bytes, a
trailing single character is an error. -/
def b64DecodeQuads : List Nat → Option (List Nat)
  | [] => some []
  | [_] => none
  | [a, b] => some [(a <<< 2 + b >>> 4) % 256]
  | [a, b, c] => some [(a <<< 2 + b >>> 4) % 256, ((b % 16) <<< 4 + c >>> 2) % 256]
  | a :: b :: c :: d :: rest =>
    (b64DecodeQuads rest).map fun tail =>
      (a <<< 2 + b >>> 4) % 256 :: ((b % 16) <<< 4 + c >>> 2) % 256 ::
      ((c % 4) <<< 6 + d) % 256 :: tail

/-- `base64.b64decode(s)`: characters outside the alphabet and `=` are
discarded (default non-validating mode), trailing `=` padding is
stripped, and the total length including padding must be a multiple of 4
(`binascii.Error: Incorrect padding` otherwise, modelled as `none`). -/
def b64decode (s : String) : Option (List Nat) :=
  let cs := s.data.filter fun c => (b64Index c).isSome || c = '='
  let pads := (cs.reverse.takeWhile (· = '=')).length
  let body := (cs.reverse.dropWhile (· = '=')).reverse
  if body.any (· = '=') then none
  else if pads > 2 then none
  else if (body.length + pads) % 4 ≠ 0 then none
  else b64DecodeQuads (body.map fun c => ((b64Index c).getD 0))

/-! ## The RFC 7636 S256 transform -/

/-- Python `str.replace(a, b)` for single characters. -/
def pyReplaceChar (s : String) (a b : Char) : String :=
  ⟨s.data.map fun c => if c = a then b else c⟩

/-- Python `str.rstrip('=')`. -/
def pyRstripEq (s : String) : String :=
  ⟨(s.data.reverse.dropWhile (· = '=')).reverse⟩

/-- UTF-8 encoding of a string (`verifier.encode()`). -/
def utf8Bytes (s : String) : List Nat :=
  s.toUTF8.toList.map UInt8.toNat

/-- `generate_code_challenge`: base64 of the SHA-256 digest of the
verifier, with `+` → `-`, `/` → `_`, and trailing `=` stripped. -/
def generate_code_challenge (verifier : String) : String :=
  pyRstripEq (pyReplaceChar (pyReplaceChar (b64encode (sha256 (utf8Bytes verifier))) '+' '-') '/' '_')

/-! ## Report service (`report_service.py`)

XML response bodies are modelled as the element tree produced by
`xml.etree.ElementTree.fromstring`; tags are the namespace-resolved local
names the source looks up (`reportFileID`, `reportDataChunk`,
`reportDataOffset`).  `elem.text` is `Option String` because ElementTree
reports an empty element's text as `None`. -/

/-- An ElementTree element: tag, text, children. -/
inductive Xml where
  | elem (tag : String) (text : Option String) (children : List Xml)

/-- The tag of an element. -/
def Xml.tag : Xml → String
  | .elem t _ _ => t

/-- The text of an element. -/
def Xml.text : Xml → Option String
  | .elem _ txt _ => txt

/-- The children of an element. -/
def Xml.children : Xml → List Xml
  | .elem _ _ cs => cs

/-- First element with the given tag in document order among a forest
(the element itself, then its subtree, then its siblings); this is
`root.find('.//tag')` applied to the root's children. -/
def findDescList (tag : String) : List Xml → Option Xml
  | [] => none
  | Xml.elem t txt cs :: xs =>
    if t = tag then some (Xml.elem t txt cs)
    else
      match findDescList tag cs with
      | some r => some r
      | none => findDescList tag xs

/-- `root.find('.//tag', ns)`: first matching descendant of the root. -/
def Xml.findDesc (root : Xml) (tag : String) : Option Xml :=
  findDescList tag root.children

/-- An HTTP response from the SOAP endpoint: status, body text, and the
element tree that `ET.fromstring` yields for that body. -/
structure ServerResponse where
  status : Nat
  text : String
  xml : Xml

/-- The message of the exception raised by `_make_soap_request` on a
non-200 status: carries the status code and the response body text. -/
def soapFailMsg (status : Nat) (body : String) : String :=
  "SOAP request failed with status " ++ toString status ++ ": " ++ body

/-- `OracleReportService._make_soap_request`: raises when no OAuth token
is available; raises with status and body on a non-200 response; returns
the body text otherwise. -/
def make_soap_request (token : Option String) (resp : ServerResponse) :
    Except String String :=
  match token with
  | none => .error "Failed to get OAuth access token"
  | some _ =>
    if resp.status ≠ 200 then .error (soapFailMsg resp.status resp.text)
    else .ok resp.text

/-- The structural error of `_parse_run_report_response`. -/
def runParseErrMsg : String := "Could not find reportFileID in response"

/-- The structural error of `_parse_download_chunk_response`. -/
def chunkParseErrMsg : String := "Could not find reportDataChunk or reportDataOffset in response"

/-- `OracleReportService._parse_run_report_response`: returns the text of
the first `reportFileID` descendant, or raises a structural error. -/
def parse_run_report_response (root : Xml) : Except String (Option String) :=
  match root.findDesc ("reportFileID") with
  | some e => .ok e.text
  | none => .error runParseErrMsg

/-- Model of Python `int(s)` on the offset text: optional surrounding
spaces, optional sign, non-empty digit string; anything else raises
`ValueError`.  `int(None)` raises `TypeError`. -/
def pyIntParse (s : String) : Option Int :=
  let cs := ((s.data.dropWhile (· = ' ')).reverse.dropWhile (· = ' ')).reverse
  let (neg, cs) := match cs with
    | '-' :: t => (true, t)
    | '+' :: t => (false, t)
    | t => (false, t)
  if cs.isEmpty || !cs.all (fun c => isDecDigit c) then none
  else
    let v : Int := Int.ofNat (digitsVal cs)
    some (if neg then -v else v)

/-- `OracleReportService._parse_download_chunk_response`: returns
`(chunk_elem.text, int(offset_elem.text))` when both elements are found,
otherwise raises a structural error; an unconvertible offset text raises
a (distinct) conversion error. -/
def parse_download_chunk_response (root : Xml) : Except String (Option String × Int) :=
  match root.findDesc ("reportDataChunk"), root.findDesc ("reportDataOffset") with
  | some c, some o =>
    match o.text with
    | none => .error "int() argument cannot be None"
    | some s =>
      match pyIntParse s with
      | some n => .ok (c.text, n)
      | none => .error ("invalid literal for int() with base 10: " ++ s)
  | _, _ => .error chunkParseErrMsg

/-! ### UTF-8 validity and line counting -/

/-- A UTF-8 continuation byte. -/
def isContByte (c : Nat) : Bool := decide (128 ≤ c) && decide (c ≤ 191)

/-- Whether a byte list is valid UTF-8 (`bytes.decode('utf-8')` raises
`UnicodeDecodeError` otherwise). -/
def utf8Valid : List Nat → Bool
  | [] => true
  | b :: rest =>
    if b < 128 then utf8Valid rest
    else if 194 ≤ b && b ≤ 223 then
      match rest with
      | c :: rest2 => isContByte c && utf8Valid rest2
      | [] => false
    else if b = 224 then
      match rest with
      | c1 :: c2 :: rest2 =>
        decide (160 ≤ c1) && decide (c1 ≤ 191) && isContByte c2 && utf8Valid rest2
      | _ => false
    else if (225 ≤ b && b ≤ 236) || b = 238 || b = 239 then
      match rest with
      | c1 :: c2 :: rest2 => isContByte c1 && isContByte c2 && utf8Valid rest2
      | _ => false
    else if b = 237 then
      match rest with
      | c1 :: c2 :: rest2 =>
        decide (128 ≤ c1) && decide (c1 ≤ 159) && isContByte c2 && utf8Valid rest2
      | _ => false
    else if b = 240 then
      match rest with
      | c1 :: c2 :: c3 :: rest2 =>
        decide (144 ≤ c1) && decide (c1 ≤ 191) && isContByte c2 && isContByte c3 &&
          utf8Valid rest2
      | _ => false
    else if 241 ≤ b && b ≤ 243 then
      match rest with
      | c1 :: c2 :: c3 :: rest2 =>
        isContByte c1 && isContByte c2 && isContByte c3 && utf8Valid rest2
      | _ => false
    else if b = 244 then
      match rest with
      | c1 :: c2 :: c3 :: rest2 =>
        decide (128 ≤ c1) && decide (c1 ≤ 143) && isContByte c2 && isContByte c3 &&
          utf8Valid rest2
      | _ => false
    else false

/-- Whitespace bytes removed by `str.strip()` (ASCII subset). -/
def isSpaceByte (c : Nat) : Bool :=
  c = 32 || c = 9 || c = 10 || c = 13 || c = 11 || c = 12

/-- `str.splitlines()` at byte level (`\n`, `\r\n`, `\r`); no trailing
empty line.  The accumulator holds the current line reversed. -/
def splitLinesAux (acc : List Nat) : List Nat → List (List Nat)
  | [] => if acc.isEmpty then [] else [acc.reverse]
  | 13 :: 10 :: rest => acc.reverse :: splitLinesAux [] rest
  | 13 :: rest => acc.reverse :: splitLinesAux [] rest
  | 10 :: rest => acc.reverse :: splitLinesAux [] rest
  | b :: rest => splitLinesAux (b :: acc) rest

/-- `sum(1 for line in decoded_data.splitlines() if line.strip())`:
the number of lines containing a non-whitespace byte. -/
def countRows (bs : List Nat) : Nat :=
  (splitLinesAux [] bs).countP fun l => l.any fun b => !isSpaceByte b

/-! ### The chunked download loop -/

/-- Truthiness of `chunk_data` (`if chunk_data:`): `None` and the empty
string are falsy. -/
def chunkTruthy : Option String → Bool
  | none => false
  | some s => !s.isEmpty

/-- Base64-decode a chunk and check it decodes as UTF-8 (the source does
`base64.b64decode(chunk_data).decode('utf-8')`). -/
def decodeChunk (s : String) : Option (List Nat) :=
  match b64decode s with
  | none => none
  | some bs => if utf8Valid bs then some bs else none

/-- One `downloadReportDataChunk` SOAP request, as observed on the wire:
the file ID, the begin offset, and the chunk size. -/
structure ChunkRequest where
  fileID : Option String
  beginIdx : Nat
  size : Nat
deriving DecidableEq

/-- Outcome of the download loop: the requests issued (in order), the
output file contents (`none` = the file was never opened), the row
count, and the loop outcome (`none` = the response list was exhausted
before an offset of −1; `some (.ok ())` = terminated on offset −1;
`some (.error e)` = an exception aborted the loop). -/
structure DownloadOut where
  requests : List ChunkRequest
  file : Option (List Nat)
  totalRows : Nat
  outcome : Option (Except String Unit)
deriving DecidableEq

/-- The `if chunk_data:` body of one loop iteration: when the chunk is
truthy, base64-decode it, UTF-8-decode it, write it (`'w'` mode on the
first chunk — create/truncate — and `'a'` — append — after), and add
its non-blank line count; a falsy chunk leaves everything untouched.
Returns the new file contents, row total, and `first_chunk` flag, or the
exception the decode raised. -/
def downloadStep (chunk_data : Option String) (first_chunk : Bool)
    (file : Option (List Nat)) (rows : Nat) :
    Except String (Option (List Nat) × Nat × Bool) :=
  if chunkTruthy chunk_data then
    match b64decode (chunk_data.getD ("")) with
    | none => .error "binascii.Error: Invalid base64-encoded string"
    | some bs =>
      if utf8Valid bs then
        .ok (if first_chunk then some bs else some (file.getD [] ++ bs),
             rows + countRows bs, false)
      else .error "UnicodeDecodeError: invalid utf-8"
  else .ok (file, rows, first_chunk)

/-- The `while True` chunk loop of `get_report_data`, driven by the list
of server responses (one per request): issue the request, check status,
parse chunk/offset, run the chunk-processing step, then stop if the
offset is −1, else advance `begin_idx` by the chunk size. -/
def downloadLoop (token : Option String) (file_id : Option String) :
    List ServerResponse → Nat → Bool → Option (List Nat) → Nat → DownloadOut
  | [], _, _, file, rows =>
    { requests := [], file := file, totalRows := rows, outcome := none }
  | r :: rest, begin_idx, first_chunk, file, rows =>
    match token with
    | none =>
      { requests := [], file := file, totalRows := rows
        outcome := some (.error "Failed to get OAuth access token") }
    | some _ =>
      let req : ChunkRequest := { fileID := file_id, beginIdx := begin_idx, size := 5000 }
      if r.status ≠ 200 then
        { requests := [req], file := file, totalRows := rows
          outcome := some (.error (soapFailMsg r.status r.text)) }
      else
        match parse_download_chunk_response r.xml with
        | .error e =>
          { requests := [req], file := file, totalRows := rows
            outcome := some (.error e) }
        | .ok (chunk_data, offset) =>
          match downloadStep chunk_data first_chunk file rows with
          | .error e =>
            { requests := [req], file := file, totalRows := rows
              outcome := some (.error e) }
          | .ok (file', rows', first') =>
            if offset = -1 then
              { requests := [req], file := file', totalRows := rows'
                outcome := some (.ok ()) }
            else
              let out := downloadLoop token file_id rest (begin_idx + 5000) first' file' rows'
              { requests := req :: out.requests, file := out.file
                totalRows := out.totalRows, outcome := out.outcome }

/-- `OracleReportService._generate_output_filename`: last path segment of
the report path with every occurrence of `.xdo` removed, joined with a
timestamp, the first 8 characters of a fresh UUID, and `.csv`, under the
downloads directory.  `timestamp` and `uuidStr` are the environment
inputs (`datetime.now().strftime(...)`, `str(uuid.uuid4())`). -/
def generate_output_filename (downloads_dir report_path timestamp uuidStr : String) : String :=
  let seg := (report_path.splitOn ("/")).getLastD ("")
  let report_name := (seg.splitOn (".xdo")).foldl (fun a b => a ++ b) ("")
  let filename := report_name ++ "_" ++ timestamp ++ "_" ++ (uuidStr.take 8) ++ ".csv"
  if downloads_dir.isEmpty then filename
  else if downloads_dir.endsWith ("/") then downloads_dir ++ filename
  else downloads_dir ++ "/" ++ filename

/-- Result of `get_report_data`. -/
structure ReportOut where
  outputFile : String
  chunkRequests : List ChunkRequest
  file : Option (List Nat)
  totalRows : Nat
  result : Option (Except String String)
deriving DecidableEq

/-- `OracleReportService.get_report_data`: generate the output filename,
run the report (status check + `reportFileID` extraction), then run the
chunked download loop starting at offset 0 with chunk size 5000.  Any
raised error aborts the pipeline (`result = some (.error _)`); success
returns the output file path. -/
def get_report_data (token : Option String)
    (downloads_dir report_path timestamp uuidStr : String)
    (runResp : ServerResponse) (chunkResps : List ServerResponse) : ReportOut :=
  let output_file := generate_output_filename downloads_dir report_path timestamp uuidStr
  match make_soap_request token runResp with
  | .error e =>
    { outputFile := output_file, chunkRequests := [], file := none, totalRows := 0
      result := some (.error e) }
  | .ok _ =>
    match parse_run_report_response runResp.xml with
    | .error e =>
      { outputFile := output_file, chunkRequests := [], file := none, totalRows := 0
        result := some (.error e) }
    | .ok file_id =>
      let dl := downloadLoop token file_id chunkResps 0 true none 0
      { outputFile := output_file, chunkRequests := dl.requests, file := dl.file
        totalRows := dl.totalRows
        result := dl.outcome.map fun x => x.map fun _ => output_file }

/-! ### Well-formed SOAP responses, as the mock server of the spec's
test scenarios produces them -/

/-- A successful `runReport` SOAP response envelope carrying the given
`reportFileID` text. -/
def mkRunResp (file_id : String) : ServerResponse :=
  { status := 200, text := "runReport-envelope"
    xml := .elem ("Envelope") none
      [.elem ("Body") none
        [.elem ("runReportResponse") none
          [.elem ("runReportReturn") none
            [.elem ("reportFileID") (some file_id) []]]]] }

/-- A successful `downloadReportDataChunk` SOAP response envelope with
the given base64 chunk text (`none` models an empty element) and offset
text. -/
def mkChunkResp (chunk_data : Option String) (offsetText : String) : ServerResponse :=
  { status := 200, text := "downloadReportDataChunk-envelope"
    xml := .elem ("Envelope") none
      [.elem ("Body") none
        [.elem ("downloadReportDataChunkResponse") none
          [.elem ("downloadReportDataChunkReturn") none
            [.elem ("reportDataChunk") chunk_data [],
             .elem ("reportDataOffset") (some offsetText) []]]]] }

/-! ## Helper lemmas -/

theorem dropWhile_headD_false {α : Type} (p : α → Bool) (l : List α) (d : α)
    (hd : p d = false) : p ((l.dropWhile p).headD d) = false := by
  induction l with
  | nil => simpa using hd
  | cons a t ih =>
    cases h : p a with
    | true => simpa [List.dropWhile, h] using ih
    | false => simp [List.dropWhile, h]

theorem getLastD_reverse {α : Type} (l : List α) (d : α) :
    l.reverse.getLastD d = l.headD d := by
  cases l with
  | nil => rfl
  | cons a t =>
    simp [List.getLastD_eq_getLast?, List.getLast?_reverse, List.headD_eq_head?]

/-- The character class `[A-Za-z0-9\-._~]` of the spec. -/
def isVerifierChar (c : Char) : Bool :=
  c.isAlpha || c.isDigit || c = '-' || c = '.' || c = '_' || c = '~'

theorem pkceChars_all_verifier : pkceChars.all isVerifierChar = true := by decide

/-! ## Claims -/

/-- C8: every string returned by `generate_code_verifier`, for any
sequence of choices of the random source, is exactly 128 characters long
and each character belongs to the class `[A-Za-z0-9\-._~]`. -/
theorem generate_code_verifier_spec (draws : Nat → Fin 66) :
    (generate_code_verifier draws).length = 128 ∧
    (generate_code_verifier draws).data.all isVerifierChar = true := by
  constructor
  · simp [generate_code_verifier, String.length]
  · rw [List.all_eq_true]
    intro c hc
    simp only [generate_code_verifier, List.mem_map, List.mem_range] at hc
    obtain ⟨i, -, rfl⟩ := hc
    have hmem : pkceChars.get (Fin.cast pkceChars_length.symm (draws i)) ∈ pkceChars :=
      pkceChars.get_mem _ _
    exact List.all_eq_true.mp pkceChars_all_verifier _ hmem

/-- C8 witness: the verifier for a concrete draw sequence. -/
theorem generate_code_verifier_spec_witness :
    (generate_code_verifier fun _ => (0 : Fin 66)).length = 128 ∧
    (generate_code_verifier fun _ => (0 : Fin 66)).data.all isVerifierChar = true :=
  generate_code_verifier_spec fun _ => (0 : Fin 66)

/-- C7: `generate_code_challenge` is a pure deterministic function of the
verifier: two applications agree; the result is exactly the base64
encoding of the SHA-256 digest of the UTF-8 bytes of the verifier with
`+` replaced by `-`, `/` replaced by `_`, and trailing `=` stripped; and
the output contains no `+`, no `/`, and does not end in `=`. -/
theorem generate_code_challenge_spec (verifier : String) :
    generate_code_challenge verifier = generate_code_challenge verifier ∧
    generate_code_challenge verifier =
      pyRstripEq (pyReplaceChar (pyReplaceChar
        (b64encode (sha256 (utf8Bytes verifier))) '+' '-') '/' '_') ∧
    (generate_code_challenge verifier).data.all
      (fun c => !(c == '+') && !(c == '/')) = true ∧
    ((generate_code_challenge verifier).data.getLastD 'A' == '=') = false := by
  refine ⟨rfl, rfl, ?_, ?_⟩
  · rw [List.all_eq_true]
    intro c hc
    have hc' : c ∈ (pyReplaceChar (pyReplaceChar
        (b64encode (sha256 (utf8Bytes verifier))) '+' '-') '/' '_').data := by
      have : (generate_code_challenge verifier).data.Sublist
          (pyReplaceChar (pyReplaceChar
            (b64encode (sha256 (utf8Bytes verifier))) '+' '-') '/' '_').data := by
        simp only [generate_code_challenge, pyRstripEq]
        calc ((pyReplaceChar (pyReplaceChar (b64encode (sha256 (utf8Bytes verifier)))
                '+' '-') '/' '_').data.reverse.dropWhile (· = '=')).reverse.Sublist
              ((pyReplaceChar (pyReplaceChar (b64encode (sha256 (utf8Bytes verifier)))
                '+' '-') '/' '_').data.reverse.reverse) :=
            List.Sublist.reverse (List.dropWhile_sublist _)
          _ = _ := List.reverse_reverse _
      exact this.mem hc
    simp only [pyReplaceChar, List.mem_map] at hc'
    obtain ⟨c1, ⟨c0, -, rfl⟩, rfl⟩ := hc'
    by_cases h0 : c0 = '+' <;> by_cases h1 : (if c0 = '+' then '-' else c0) = '/' <;>
      simp_all
  · simp only [generate_code_challenge, pyRstripEq, getLastD_reverse]
    have := dropWhile_headD_false (· = '=')
      ((pyReplaceChar (pyReplaceChar (b64encode (sha256 (utf8Bytes verifier)))
        '+' '-') '/' '_').data.reverse) 'A' (by decide)
    simpa using this

/-- C7 witness: the transform evaluated at a concrete verifier. -/
theorem generate_code_challenge_spec_witness :
    generate_code_challenge ("test") = generate_code_challenge ("test") ∧
    generate_code_challenge ("test") =
      pyRstripEq (pyReplaceChar (pyReplaceChar
        (b64encode (sha256 (utf8Bytes ("test")))) '+' '-') '/' '_') ∧
    (generate_code_challenge ("test")).data.all
      (fun c => !(c == '+') && !(c == '/')) = true ∧
    ((generate_code_challenge ("test")).data.getLastD 'A' == '=') = false :=
  generate_code_challenge_spec ("test")

theorem authPoll_timeout (codeAt : Nat → Option String)
    (h : ∀ t, codeAt t = none) :
    ∀ fuel t, 301 < t + fuel → t ≤ 301 →
      authPoll codeAt fuel t = some (.error ("Authorization timed out after 5 minutes"), 301) := by
  intro fuel
  induction fuel with
  | zero => intro t h1 h2; omega
  | succ f ih =>
    intro t h1 h2
    simp only [authPoll, h t]
    by_cases ht : 300 < t
    · have : t = 301 := by omega
      subst this
      simp
    · have ht' : ¬ 300 < t := ht
      simp only [ht', if_false]
      exact ih (t + 1) (by omega) (by omega)

/-- C5: when no authorization code is ever captured by the callback
listener, the wait loop of `start_auth_server` shuts the listener down
and raises `TimeoutError` at its 301st elapsed second (the first poll at
which `time.time() - start_time > 300`), so the full-auth branch never
waits beyond the 300-second ceiling (up to the loop's 1-second poll
granularity) and the listener is stopped when the error is raised. -/
theorem start_auth_server_timeout (codeAt : Nat → Option String) (draws : Nat → Fin 66)
    (h : ∀ t, codeAt t = none) :
    start_auth_server codeAt draws =
      some { result := .error ("Authorization timed out after 5 minutes")
             serverStopped := true, elapsed := 301 } := by
  simp only [start_auth_server, authPoll_timeout codeAt h 302 0 (by omega) (by omega)]

/-- C5 witness: the schedule that never delivers a code. -/
theorem start_auth_server_timeout_witness :
    start_auth_server (fun _ => none) (fun _ => (0 : Fin 66)) =
      some { result := .error ("Authorization timed out after 5 minutes")
             serverStopped := true, elapsed := 301 } :=
  start_auth_server_timeout (fun _ => none) (fun _ => (0 : Fin 66)) (fun _ => rfl)

theorem isEmpty_false_of_ne {s : String} (h : s ≠ ("")) : s.isEmpty = false := by
  rw [Bool.eq_false_iff]
  intro hE
  exact h ((String.isEmpty_iff _).mp hE)

theorem refresh_access_token_events (st : AuthState) (kc : Keychain) (w : World) :
    (refresh_access_token st kc w).events = [.refreshEntered] ∨
    (refresh_access_token st kc w).events = [.refreshEntered, .netRefreshPost] := by
  simp only [refresh_access_token]
  by_cases h : (!pyTruthyStr (if pyTruthyStr st.refresh_token then st.refresh_token
      else (load_from_keychain kc).2.2)) = true
  · rw [if_pos h]
    left; rfl
  · rw [if_neg h]
    cases w.refreshResp with
    | error e => right; rfl
    | ok td => right; rfl

theorem get_token_events (st : AuthState) (kc : Keychain) (w : World) (a b : String) :
    (get_token st kc w a b).events = [.netTokenPost] := by
  unfold get_token
  cases w.exchangeResp <;> rfl

/-- C2: `get_connection` returns a cached token only when
`time.time() < expiry - 300`, with the 300-second margin applied to both
the in-memory token (part i) and the token loaded from the keychain
(part ii); whenever both stored expiries fail the margin check — in
particular for an expiry of `now + 200` — both cached paths are skipped
and refresh is attempted instead (part iii); and when the in-memory
token is fresh the call performs no network round-trip and leaves all
state unchanged (part i). -/
theorem get_connection_margin :
    (∀ st kc w draws tok e, st.access_token = some tok → tok ≠ ("") →
      st.token_expiry = some e → e ≠ 0 → w.now < e - 300 →
      get_connection st kc w draws =
        some { result := .ok (some tok), state := st, keychain := kc
               events := [.memoryCacheHit] }) ∧
    (∀ st kc w draws tok s e, st.access_token = none →
      kc.oauth_token = some tok → tok ≠ ("") →
      kc.oauth_token_expiry = some s → pyFloatParse s = some e → e ≠ 0 →
      w.now < e - 300 →
      get_connection st kc w draws =
        some { result := .ok (some tok)
               state := { st with access_token := some tok, token_expiry := some e }
               keychain := kc, events := [.keychainCacheHit] }) ∧
    (∀ st kc w draws tok s em ek, st.access_token = some tok →
      st.token_expiry = some em → ¬ w.now < em - 300 →
      kc.oauth_token_expiry = some s → pyFloatParse s = some ek →
      ¬ w.now < ek - 300 →
      ∀ r, get_connection st kc w draws = some r →
        AuthEvent.memoryCacheHit ∉ r.events ∧
        AuthEvent.keychainCacheHit ∉ r.events ∧
        AuthEvent.refreshEntered ∈ r.events) := by
  refine ⟨?_, ?_, ?_⟩
  · intro st kc w draws tok e htok hne hexp he0 hmargin
    have h1 : pyTruthyStr st.access_token = true := by
      simp [pyTruthyStr, htok, isEmpty_false_of_ne hne]
    have h2 : pyTruthyFloat st.token_expiry = true := by
      simp [pyTruthyFloat, hexp, he0]
    have h3 : decide (w.now < st.token_expiry.getD 0 - 300) = true := by
      rw [hexp]; exact decide_eq_true hmargin
    simp only [get_connection, h1, h2, h3, Bool.and_self, Bool.true_and, if_true]
    rw [htok]
  · intro st kc w draws tok s e hmem hkc htokne hkce hparse he0 hmargin
    have h1 : (pyTruthyStr st.access_token && pyTruthyFloat st.token_expiry &&
        decide (w.now < st.token_expiry.getD 0 - 300)) = false := by
      simp [pyTruthyStr, hmem]
    have hsne : s.isEmpty = false := by
      cases hs : s.isEmpty with
      | false => rfl
      | true =>
        rw [String.isEmpty_iff] at hs
        subst hs
        simp [pyFloatParse] at hparse
    have hload : load_from_keychain kc = (some tok, some e, kc.oauth_refresh_token) := by
      simp [load_from_keychain, hkce, hsne, hparse, hkc]
    have h2 : pyTruthyStr (some tok) = true := by
      simp [pyTruthyStr, isEmpty_false_of_ne htokne]
    have h3 : pyTruthyFloat (some e) = true := by simp [pyTruthyFloat, he0]
    have h4 : decide (w.now < (some e : Option Int).getD 0 - 300) = true :=
      decide_eq_true hmargin
    simp only [get_connection, h1, Bool.false_and, if_false, hload, h2, h3, h4,
      Bool.and_self, Bool.true_and, if_true]
    simp
  · intro st kc w draws tok s em ek hmem hexp hnm hkce hparse hnk r hr
    have h1 : (pyTruthyStr st.access_token && pyTruthyFloat st.token_expiry &&
        decide (w.now < st.token_expiry.getD 0 - 300)) = false := by
      have : decide (w.now < st.token_expiry.getD 0 - 300) = false := by
        rw [hexp]
        simp only [Option.getD_some]
        exact decide_eq_false hnm
      simp only [this, Bool.and_false]
    have h2 : ∀ tk ex rf, load_from_keychain kc = (tk, ex, rf) →
        (pyTruthyStr tk && pyTruthyFloat ex &&
          decide (w.now < ex.getD 0 - 300)) = false := by
      intro tk ex rf hload
      simp only [load_from_keychain, hkce] at hload
      rw [if_neg, hparse] at hload
      · cases hload
        have : decide (w.now < ((some ek : Option Int)).getD 0 - 300) = false := by
          simp only [Option.getD_some]
          exact decide_eq_false hnk
        simp only [this, Bool.and_false]
      · intro hse
        rw [String.isEmpty_iff] at hse
        subst hse
        simp [pyFloatParse] at hparse
    have hrev := refresh_access_token_events st kc w
    rcases hL : load_from_keychain kc with ⟨tk, ex, rf⟩
    have hload2 := h2 tk ex rf hL
    rw [get_connection, if_neg (by simp [h1]), hL] at hr
    simp only at hr
    rw [if_neg (by simp [hload2])] at hr
    by_cases hres : pyTruthyStr (refresh_access_token st kc w).result = true
    · rw [if_pos hres] at hr
      cases hr
      rcases hrev with h | h <;> simp [h]
    · rw [if_neg hres] at hr
      cases hS : start_auth_server w.codeAt draws with
      | none => rw [hS] at hr; cases hr
      | some run =>
        rw [hS] at hr
        dsimp only at hr
        cases hRR : run.result with
        | error e =>
          rw [hRR] at hr
          dsimp only at hr
          cases hr
          rcases hrev with h | h <;> simp [h]
        | ok cv =>
          obtain ⟨code, verifier⟩ := cv
          rw [hRR] at hr
          dsimp only at hr
          cases hG : (get_token (refresh_access_token st kc w).state
              (refresh_access_token st kc w).keychain w code verifier).result with
          | error e =>
            rw [hG] at hr
            cases hr
            rcases hrev with h | h <;> simp [h, get_token_events]
          | ok td =>
            rw [hG] at hr
            cases hr
            rcases hrev with h | h <;> simp [h, get_token_events]

/-- A network environment in which both token-endpoint calls fail and no
browser callback ever arrives. -/
def deadWorld : World :=
  { now := 1000, refreshResp := .error ("HTTP 400 Bad Request")
    codeAt := fun _ => none, exchangeResp := .error ("HTTP 500") }

/-- A fixed random-source schedule. -/
def zeroDraws : Nat → Fin 66 := fun _ => (0 : Fin 66)

/-- An empty credential store. -/
def emptyKeychain : Keychain := ⟨none, none, none⟩

set_option maxRecDepth 8000 in
/-- C2 witness: the three margin behaviours at concrete inputs — a fresh
in-memory token is returned from cache with no network event; a fresh
keychain token is promoted and returned; a token expiring in 200 seconds
skips both caches and enters the refresh path. -/
theorem get_connection_margin_witness :
    get_connection ⟨some ("T"), some 2000, none⟩ emptyKeychain deadWorld zeroDraws =
      some { result := .ok (some ("T")), state := ⟨some ("T"), some 2000, none⟩
             keychain := emptyKeychain, events := [.memoryCacheHit] } ∧
    get_connection ⟨none, none, none⟩ ⟨some ("K"), some ("2000.0"), some ("R")⟩ deadWorld zeroDraws =
      some { result := .ok (some ("K")), state := ⟨some ("K"), some 2000, none⟩
             keychain := ⟨some ("K"), some ("2000.0"), some ("R")⟩
             events := [.keychainCacheHit] } ∧
    (AuthEvent.memoryCacheHit ∉
        [AuthEvent.refreshEntered, AuthEvent.authServerStarted] ∧
      AuthEvent.keychainCacheHit ∉
        [AuthEvent.refreshEntered, AuthEvent.authServerStarted] ∧
      AuthEvent.refreshEntered ∈
        [AuthEvent.refreshEntered, AuthEvent.authServerStarted]) := by
  refine ⟨?_, ?_, ?_⟩
  · exact get_connection_margin.1 ⟨some ("T"), some 2000, none⟩ emptyKeychain deadWorld
      zeroDraws ("T") 2000 rfl (by decide) rfl (by decide) (by decide)
  · exact get_connection_margin.2.1 ⟨none, none, none⟩
      ⟨some ("K"), some ("2000.0"), some ("R")⟩ deadWorld zeroDraws ("K") ("2000.0") 2000
      rfl rfl (by decide) rfl (by decide) (by decide) (by decide)
  · exact get_connection_margin.2.2 ⟨some ("T"), some 1200, none⟩
      ⟨some ("T"), some ("1200.0"), none⟩ deadWorld zeroDraws ("T") ("1200.0")
      1200 1200 rfl rfl (by decide) rfl (by decide) (by decide)
      { result := .ok none, state := ⟨some ("T"), some 1200, none⟩
        keychain := ⟨some ("T"), some ("1200.0"), none⟩
        events := [.refreshEntered, .authServerStarted] }
      (by decide)

theorem authPoll_isSome (codeAt : Nat → Option String) :
    ∀ fuel t, 301 < t + fuel → t ≤ 301 → (authPoll codeAt fuel t).isSome = true := by
  intro fuel
  induction fuel with
  | zero => intro t h1 h2; omega
  | succ f ih =>
    intro t h1 h2
    simp only [authPoll]
    cases codeAt t with
    | some c => rfl
    | none =>
      by_cases ht : 300 < t
      · simp [ht]
      · simp only [ht, if_false]
        exact ih (t + 1) (by omega) (by omega)

set_option maxRecDepth 8000 in
/-- C3 counterexample: with no cached credentials, no refresh token, and
a full-auth flow that fails (no callback ever arrives, so the wait times
out), `get_connection` returns `None` (`.ok none`) — the `TimeoutError`
does not propagate to the caller. -/
theorem get_connection_fullauth_null_cex :
    (get_connection ⟨none, none, none⟩ emptyKeychain deadWorld zeroDraws).map
      ConnResult.result = some (.ok none) := by decide

/-- C3 amended: when the full interactive flow is reached inside
`get_connection` and fails — the callback wait times out, or the
token-endpoint code exchange errors — the exception is caught by the
surrounding `except Exception`, logged, and converted into a `None`
return; it does not propagate to the caller. -/
theorem get_connection_fullauth_null (st : AuthState) (kc : Keychain) (w : World)
    (draws : Nat → Fin 66)
    (hmem : st.access_token = none) (hrt : st.refresh_token = none)
    (hkc : kc = emptyKeychain)
    (hfail : (∀ t, w.codeAt t = none) ∨ ∃ e, w.exchangeResp = .error e) :
    (get_connection st kc w draws).map ConnResult.result = some (.ok none) := by
  subst hkc
  have h1 : (pyTruthyStr st.access_token && pyTruthyFloat st.token_expiry &&
      decide (w.now < st.token_expiry.getD 0 - 300)) = false := by
    simp [pyTruthyStr, hmem]
  have hR : refresh_access_token st emptyKeychain w =
      ⟨none, st, emptyKeychain, [.refreshEntered]⟩ := by
    unfold refresh_access_token
    rw [hrt]
    rfl
  rw [get_connection, if_neg (by simp [h1])]
  have hload : load_from_keychain emptyKeychain = (none, none, none) := rfl
  rw [hload]
  simp only
  rw [if_neg (by simp [pyTruthyStr]), hR]
  simp only [pyTruthyStr, Bool.false_eq_true, if_false]
  rcases hfail with htimeout | ⟨e, hexch⟩
  · rw [start_auth_server_timeout w.codeAt draws htimeout]
    rfl
  · cases hS : start_auth_server w.codeAt draws with
    | none =>
      have := authPoll_isSome w.codeAt 302 0 (by omega) (by omega)
      simp only [start_auth_server] at hS
      cases hP : authPoll w.codeAt 302 0 with
      | none => rw [hP] at this; simp at this
      | some p => rw [hP] at hS; rcases p with ⟨pr, pt⟩; cases pr <;> simp at hS
    | some run =>
      dsimp only
      cases hRR : run.result with
      | error e2 => rfl
      | ok cv =>
        obtain ⟨code, verifier⟩ := cv
        dsimp only
        have hG : (get_token st emptyKeychain w code verifier).result = .error e := by
          unfold get_token
          rw [hexch]
        rw [hG]
        rfl

/-- A network environment in which the callback arrives immediately but
the code-exchange POST fails. -/
def exchFailWorld : World :=
  { now := 1000, refreshResp := .error ("HTTP 400 Bad Request")
    codeAt := fun _ => some ("AUTHCODE"), exchangeResp := .error ("HTTP 500") }

/-- C3 amended-claim witness: the concrete code-exchange-failure
scenario also yields a `None` return. -/
theorem get_connection_fullauth_null_witness :
    (get_connection ⟨none, none, none⟩ emptyKeychain exchFailWorld zeroDraws).map
      ConnResult.result = some (.ok none) :=
  get_connection_fullauth_null ⟨none, none, none⟩ emptyKeychain exchFailWorld zeroDraws
    rfl rfl rfl (Or.inr ⟨("HTTP 500"), rfl⟩)

/-- C4 counterexample: with an in-memory state holding no refresh token
and a keychain holding only a refresh-token entry, a failed refresh POST
does not delete the stored refresh token: `clear_keychain`'s first
delete (`oauth_token`, absent) raises, the shared `except` skips the
remaining deletes, and a subsequent load still finds the refresh token. -/
theorem refresh_failure_clear_cex :
    (refresh_access_token ⟨none, none, none⟩ ⟨none, none, some ("rt")⟩ deadWorld).result
        = none ∧
    (refresh_access_token ⟨none, none, none⟩ ⟨none, none, some ("rt")⟩
        deadWorld).keychain.oauth_refresh_token = some ("rt") ∧
    (load_from_keychain (refresh_access_token ⟨none, none, none⟩
        ⟨none, none, some ("rt")⟩ deadWorld).keychain).2.2 = some ("rt") := by
  decide

/-- C4 amended: whenever the refresh POST fails, `refresh_access_token`
returns `None` and always clears the in-memory access token, refresh
token, and expiry; the keychain entries are deleted sequentially and a
missing earlier entry aborts the remaining deletes, so all three entries
are deleted — and a subsequent load finds no token and no refresh
token — whenever all three are present (in particular in the normal
case of a fully populated store). -/
theorem refresh_failure_clears (st : AuthState) (kc : Keychain) (w : World)
    (hrt : pyTruthyStr (if pyTruthyStr st.refresh_token then st.refresh_token
      else (load_from_keychain kc).2.2) = true)
    (herr : ∃ e, w.refreshResp = .error e) :
    (refresh_access_token st kc w).result = none ∧
    (refresh_access_token st kc w).state = ⟨none, none, none⟩ ∧
    (kc.oauth_token.isSome = true → kc.oauth_token_expiry.isSome = true →
      kc.oauth_refresh_token.isSome = true →
      (refresh_access_token st kc w).keychain = ⟨none, none, none⟩ ∧
      load_from_keychain (refresh_access_token st kc w).keychain =
        (none, none, none)) := by
  obtain ⟨e, he⟩ := herr
  have hbody : refresh_access_token st kc w =
      { result := none
        state := { access_token := none, token_expiry := none, refresh_token := none }
        keychain := clear_keychain kc
        events := [.refreshEntered, .netRefreshPost] } := by
    unfold refresh_access_token
    rw [if_neg (by simp [hrt]), he]
  rw [hbody]
  refine ⟨rfl, rfl, ?_⟩
  intro h1 h2 h3
  obtain ⟨a, ha⟩ := Option.isSome_iff_exists.mp h1
  obtain ⟨b, hb⟩ := Option.isSome_iff_exists.mp h2
  obtain ⟨c, hc⟩ := Option.isSome_iff_exists.mp h3
  have hclear : clear_keychain kc = ⟨none, none, none⟩ := by
    unfold clear_keychain
    rw [ha, hb, hc]
  rw [hclear]
  exact ⟨rfl, rfl⟩

/-- C4 amended-claim witness: refresh failure with a fully populated
store clears everything. -/
theorem refresh_failure_clears_witness :
    (refresh_access_token ⟨none, none, some ("rt")⟩
        ⟨some ("t"), some ("500.0"), some ("rt")⟩ deadWorld).result = none ∧
    (refresh_access_token ⟨none, none, some ("rt")⟩
        ⟨some ("t"), some ("500.0"), some ("rt")⟩ deadWorld).state = ⟨none, none, none⟩ ∧
    (refresh_access_token ⟨none, none, some ("rt")⟩
        ⟨some ("t"), some ("500.0"), some ("rt")⟩ deadWorld).keychain =
      ⟨none, none, none⟩ ∧
    load_from_keychain (refresh_access_token ⟨none, none, some ("rt")⟩
        ⟨some ("t"), some ("500.0"), some ("rt")⟩ deadWorld).keychain =
      (none, none, none) := by
  have h := refresh_failure_clears ⟨none, none, some ("rt")⟩
    ⟨some ("t"), some ("500.0"), some ("rt")⟩ deadWorld (by decide)
    ⟨("HTTP 400 Bad Request"), rfl⟩
  exact ⟨h.1, h.2.1, (h.2.2 rfl rfl rfl).1, (h.2.2 rfl rfl rfl).2⟩

/-- C10: when the code exchange succeeds with a body lacking
`expires_in` while no expiry is held in memory, `save_to_keychain`
persists the expiry secret as the literal string `"None"`; every
subsequent `load_from_keychain` then fails converting it to a float and
returns `(None, None, None)`, so the persisted access token and any
stored refresh token can never be read back — even though the access
token was written to the store. -/
theorem get_token_none_expiry (st : AuthState) (kc : Keychain) (w : World)
    (code verifier : String) (td : TokenData)
    (hexp : st.token_expiry = none) (hok : w.exchangeResp = .ok td)
    (hei : td.expires_in = none) :
    (get_token st kc w code verifier).keychain.oauth_token = some td.access_token ∧
    (get_token st kc w code verifier).keychain.oauth_token_expiry = some ("None") ∧
    load_from_keychain (get_token st kc w code verifier).keychain =
      (none, none, none) := by
  have hparse : pyFloatParse ("None") = none := by decide
  have hne : (("None" : String)).isEmpty = false := by decide
  cases htd : td.refresh_token with
  | none =>
    refine ⟨?_, ?_, ?_⟩ <;>
      simp [get_token, hok, hei, htd, save_to_keychain, load_from_keychain,
        pyFloatStr, hexp, hparse, hne]
  | some r =>
    refine ⟨?_, ?_, ?_⟩ <;>
      simp [get_token, hok, hei, htd, save_to_keychain, load_from_keychain,
        pyFloatStr, hexp, hparse, hne]

/-- C10 witness: a concrete exchange response with `access_token` and
`refresh_token` but no `expires_in`. -/
theorem get_token_none_expiry_witness :
    (get_token ⟨none, none, none⟩ emptyKeychain
        { deadWorld with exchangeResp := .ok ⟨("AT"), none, some ("RT")⟩ }
        ("c") ("v")).keychain.oauth_token = some ("AT") ∧
    (get_token ⟨none, none, none⟩ emptyKeychain
        { deadWorld with exchangeResp := .ok ⟨("AT"), none, some ("RT")⟩ }
        ("c") ("v")).keychain.oauth_token_expiry = some ("None") ∧
    load_from_keychain (get_token ⟨none, none, none⟩ emptyKeychain
        { deadWorld with exchangeResp := .ok ⟨("AT"), none, some ("RT")⟩ }
        ("c") ("v")).keychain = (none, none, none) :=
  get_token_none_expiry ⟨none, none, none⟩ emptyKeychain
    { deadWorld with exchangeResp := .ok ⟨("AT"), none, some ("RT")⟩ }
    ("c") ("v") ⟨("AT"), none, some ("RT")⟩ rfl rfl rfl

/-! ## Download-loop lemmas -/

/-- A chunk item `(chunk_data, offset text, offset value)` the server
answers with: the offset text parses to the offset value, and a truthy
chunk decodes (base64 + UTF-8). -/
def goodChunkItem (it : Option String × String × Int) : Prop :=
  pyIntParse it.2.1 = some it.2.2 ∧
  (chunkTruthy it.1 = true → (decodeChunk (it.1.getD (""))).isSome = true)

instance (it : Option String × String × Int) : Decidable (goodChunkItem it) := by
  unfold goodChunkItem
  infer_instance

/-- The server responses for a list of chunk items. -/
def mkChunkResps (items : List (Option String × String × Int)) : List ServerResponse :=
  items.map fun it => mkChunkResp it.1 it.2.1

/-- How many responses the loop consumes from a given offset sequence:
everything up to and including the first −1, or the whole list. -/
def consumedCount : List Int → Nat
  | [] => 0
  | o :: rest => if o = -1 then 1 else 1 + consumedCount rest

theorem parse_mkChunkResp (cd : Option String) (s : String) (off : Int)
    (h : pyIntParse s = some off) :
    parse_download_chunk_response (mkChunkResp cd s).xml = .ok (cd, off) := by
  cases cd <;>
    simp [parse_download_chunk_response, mkChunkResp, Xml.findDesc, findDescList,
      Xml.children, Xml.text, h]

theorem parse_mkRunResp (fid : String) :
    parse_run_report_response (mkRunResp fid).xml = .ok (some fid) := by
  simp [parse_run_report_response, mkRunResp, Xml.findDesc, findDescList,
    Xml.children, Xml.text]

theorem decodeChunk_isSome {s : String} (h : (decodeChunk s).isSome = true) :
    ∃ bs, b64decode s = some bs ∧ utf8Valid bs = true := by
  unfold decodeChunk at h
  cases hb : b64decode s with
  | none => rw [hb] at h; simp at h
  | some bs =>
    rw [hb] at h
    dsimp only at h
    cases hu : utf8Valid bs with
    | false => rw [hu] at h; simp at h
    | true => exact ⟨bs, rfl, hu⟩

theorem mkChunkResp_status (cd : Option String) (s : String) :
    (mkChunkResp cd s).status = 200 := rfl

/-- One unfolding of the loop on a well-formed chunk response whose
processing step succeeds. -/
theorem downloadLoop_cons (tok : String) (fid cd : Option String) (s : String)
    (off : Int) (l : List ServerResponse) (b : Nat) (first : Bool)
    (file : Option (List Nat)) (rows : Nat) (f2 : Option (List Nat)) (r2 : Nat) (fc2 : Bool)
    (hp : pyIntParse s = some off)
    (hstep : downloadStep cd first file rows = .ok (f2, r2, fc2)) :
    downloadLoop (some tok) fid (mkChunkResp cd s :: l) b first file rows =
      if off = -1 then
        { requests := [{ fileID := fid, beginIdx := b, size := 5000 }]
          file := f2, totalRows := r2, outcome := some (.ok ()) }
      else
        { requests := { fileID := fid, beginIdx := b, size := 5000 } ::
            (downloadLoop (some tok) fid l (b + 5000) fc2 f2 r2).requests
          file := (downloadLoop (some tok) fid l (b + 5000) fc2 f2 r2).file
          totalRows := (downloadLoop (some tok) fid l (b + 5000) fc2 f2 r2).totalRows
          outcome := (downloadLoop (some tok) fid l (b + 5000) fc2 f2 r2).outcome } := by
  rw [downloadLoop]
  simp only [mkChunkResp_status, parse_mkChunkResp cd s off hp, hstep, ne_eq,
    not_true_eq_false, Bool.false_eq_true, if_false]

/-- The processing step succeeds on a good chunk. -/
theorem downloadStep_ok (cd : Option String) (first : Bool) (file : Option (List Nat))
    (rows : Nat)
    (hdec : chunkTruthy cd = true → (decodeChunk (cd.getD (""))).isSome = true) :
    ∃ f2 r2 fc2, downloadStep cd first file rows = .ok (f2, r2, fc2) := by
  cases hc : chunkTruthy cd with
  | false => exact ⟨file, rows, first, by simp [downloadStep, hc]⟩
  | true =>
    obtain ⟨bs, hb, hu⟩ := decodeChunk_isSome (hdec hc)
    exact ⟨if first then some bs else some (file.getD [] ++ bs),
      rows + countRows bs, false, by simp [downloadStep, hc, hb, hu]⟩

/-- A falsy chunk leaves file, rows, and the first-chunk flag unchanged. -/
theorem downloadStep_falsy (cd : Option String) (first : Bool) (file : Option (List Nat))
    (rows : Nat) (hc : chunkTruthy cd = false) :
    downloadStep cd first file rows = .ok (file, rows, first) := by
  simp [downloadStep, hc]

/-- Requests and termination of the download loop on well-formed
responses: the loop issues one request per consumed response, at begin
offsets advancing from `b` in steps of the 5000-byte chunk size, and
terminates normally exactly when some (first) response carries offset
−1. -/
theorem downloadLoop_good (tok : String) (fid : Option String) :
    ∀ (items : List (Option String × String × Int)) (b : Nat) (first : Bool)
      (file : Option (List Nat)) (rows : Nat),
      (∀ it ∈ items, goodChunkItem it) →
      (downloadLoop (some tok) fid (mkChunkResps items) b first file rows).requests =
        (List.range (consumedCount (items.map fun it => it.2.2))).map
          (fun i => { fileID := fid, beginIdx := b + 5000 * i, size := 5000 }) ∧
      (downloadLoop (some tok) fid (mkChunkResps items) b first file rows).outcome =
        (if (items.map fun it => it.2.2).any (fun o => decide (o = -1)) then
          some (.ok ()) else none) := by
  intro items
  induction items with
  | nil => intro b first file rows _; exact ⟨rfl, rfl⟩
  | cons it rest ih =>
    intro b first file rows hgood
    obtain ⟨hp, hdec⟩ := hgood it (List.mem_cons_self it rest)
    have hrest := fun x hx => hgood x (List.mem_cons_of_mem it hx)
    obtain ⟨cd, s, off⟩ := it
    obtain ⟨f2, r2, fc2, hstep⟩ := downloadStep_ok cd first file rows hdec
    have key := downloadLoop_cons tok fid cd s off (mkChunkResps rest) b first file rows
      f2 r2 fc2 hp hstep
    rw [mkChunkResps, List.map_cons]
    rw [show (List.map (fun it => mkChunkResp it.1 it.2.1) rest) = mkChunkResps rest from rfl]
    rw [key]
    by_cases ho : off = -1
    · rw [if_pos ho]
      refine ⟨?_, ?_⟩
      · simp [consumedCount, ho, List.range_succ]
      · simp [ho]
    · rw [if_neg ho]
      obtain ⟨hreq, hout⟩ := ih (b + 5000) fc2 f2 r2 hrest
      refine ⟨?_, ?_⟩
      · dsimp only
        rw [hreq]
        have hcc : consumedCount (((cd, s, off) :: rest).map fun it => it.2.2) =
            consumedCount (rest.map fun it => it.2.2) + 1 := by
          show (if off = -1 then 1 else 1 + consumedCount (rest.map fun it => it.2.2)) = _
          rw [if_neg ho]
          omega
        rw [hcc, List.range_succ_eq_map]
        simp only [List.map_cons, List.map_map, List.cons.injEq]
        refine ⟨by simp, ?_⟩
        apply List.map_congr_left
        intro i _
        simp only [Function.comp_apply, ChunkRequest.mk.injEq]
        refine ⟨trivial, ?_, trivial⟩
        omega
      · dsimp only
        rw [hout, List.map_cons, List.any_cons, decide_eq_false ho, Bool.false_or]

/-- When every chunk before termination is falsy (absent or empty), the
loop never opens the output file and never adds rows: the file state and
row count come out exactly as they went in. -/
theorem downloadLoop_empty_chunks (tok : String) (fid : Option String) :
    ∀ (items : List (Option String × String × Int)) (b : Nat) (first : Bool)
      (file : Option (List Nat)) (rows : Nat),
      (∀ it ∈ items, pyIntParse it.2.1 = some it.2.2 ∧ chunkTruthy it.1 = false) →
      (downloadLoop (some tok) fid (mkChunkResps items) b first file rows).file = file ∧
      (downloadLoop (some tok) fid (mkChunkResps items) b first file rows).totalRows = rows := by
  intro items
  induction items with
  | nil => intro b first file rows _; exact ⟨rfl, rfl⟩
  | cons it rest ih =>
    intro b first file rows h
    obtain ⟨hp, hc⟩ := h it (List.mem_cons_self it rest)
    have hrest := fun x hx => h x (List.mem_cons_of_mem it hx)
    obtain ⟨cd, s, off⟩ := it
    have key := downloadLoop_cons tok fid cd s off (mkChunkResps rest) b first file rows
      file rows first hp (downloadStep_falsy cd first file rows hc)
    rw [mkChunkResps, List.map_cons]
    rw [show (List.map (fun it => mkChunkResp it.1 it.2.1) rest) = mkChunkResps rest from rfl]
    rw [key]
    by_cases ho : off = -1
    · rw [if_pos ho]
      exact ⟨rfl, rfl⟩
    · rw [if_neg ho]
      exact ih (b + 5000) first file rows hrest

/-- A run of good non-terminal responses only shifts the loop's cursor:
the outcome on `good ++ l` is the outcome of the loop continued on `l`
from some later state. -/
theorem downloadLoop_append_outcome (tok : String) (fid : Option String) :
    ∀ (items : List (Option String × String × Int)) (l : List ServerResponse)
      (b : Nat) (first : Bool) (file : Option (List Nat)) (rows : Nat),
      (∀ it ∈ items, goodChunkItem it) →
      (∀ it ∈ items, it.2.2 ≠ -1) →
      ∃ b2 fc2 f2 r2,
        (downloadLoop (some tok) fid (mkChunkResps items ++ l) b first file rows).outcome =
          (downloadLoop (some tok) fid l b2 fc2 f2 r2).outcome := by
  intro items
  induction items with
  | nil =>
    intro l b first file rows _ _
    exact ⟨b, first, file, rows, rfl⟩
  | cons it rest ih =>
    intro l b first file rows hgood hneg
    obtain ⟨hp, hdec⟩ := hgood it (List.mem_cons_self it rest)
    have hrest := fun x hx => hgood x (List.mem_cons_of_mem it hx)
    have hnegrest := fun x hx => hneg x (List.mem_cons_of_mem it hx)
    have ho : it.2.2 ≠ -1 := hneg it (List.mem_cons_self it rest)
    obtain ⟨cd, s, off⟩ := it
    obtain ⟨f2, r2, fc2, hstep⟩ := downloadStep_ok cd first file rows hdec
    have key := downloadLoop_cons tok fid cd s off (mkChunkResps rest ++ l) b first file
      rows f2 r2 fc2 hp hstep
    rw [mkChunkResps, List.map_cons, List.cons_append]
    rw [show (List.map (fun it => mkChunkResp it.1 it.2.1) rest) = mkChunkResps rest from rfl]
    rw [key, if_neg ho]
    exact ih l (b + 5000) fc2 f2 r2 hrest hnegrest

theorem decodeChunk_eq_some {s : String} {b : List Nat} (h : decodeChunk s = some b) :
    b64decode s = some b ∧ utf8Valid b = true := by
  unfold decodeChunk at h
  cases hb : b64decode s with
  | none => rw [hb] at h; cases h
  | some bs =>
    rw [hb] at h
    dsimp only at h
    cases hu : utf8Valid bs with
    | false => rw [hu] at h; simp at h
    | true =>
      rw [hu] at h
      simp only [if_true] at h
      cases h
      exact ⟨rfl, hu⟩

/-- The processing step on a truthy, well-decoding chunk. -/
theorem downloadStep_truthy {d : String} {bL : List Nat} (first : Bool)
    (file : Option (List Nat)) (rows : Nat)
    (hne : d ≠ ("")) (hd : decodeChunk d = some bL) :
    downloadStep (some d) first file rows =
      .ok (if first then some bL else some (file.getD [] ++ bL),
           rows + countRows bL, false) := by
  obtain ⟨hb, hu⟩ := decodeChunk_eq_some hd
  simp [downloadStep, chunkTruthy, isEmpty_false_of_ne hne, hb, hu]

/-- C1: in the spec's chunked-download scenario — run-report yields a
file ID and the server answers the download requests with next-offsets
0, 5000, 10000 and then −1 — the pipeline issues exactly 4
`downloadReportDataChunk` requests with begin-offsets 0, 5000, 10000,
15000, appends each base64-decoded chunk to the output file in request
order, and stops without issuing a 5th request (any further prepared
responses are never consumed); and in general the loop issues one
request per response, each begin-offset the previous plus the fixed
chunk size 5000, and terminates normally exactly when a response's
offset equals −1. -/
theorem get_report_data_chunking :
    (∀ (tok fid rp dir tsp uid d0 d1 d2 d3 : String) (b0 b1 b2 b3 : List Nat)
       (rest : List ServerResponse),
      d0 ≠ ("") → decodeChunk d0 = some b0 →
      d1 ≠ ("") → decodeChunk d1 = some b1 →
      d2 ≠ ("") → decodeChunk d2 = some b2 →
      d3 ≠ ("") → decodeChunk d3 = some b3 →
      (get_report_data (some tok) dir rp tsp uid (mkRunResp fid)
          ([mkChunkResp (some d0) ("0"), mkChunkResp (some d1) ("5000"),
            mkChunkResp (some d2) ("10000"), mkChunkResp (some d3) ("-1")] ++ rest)).chunkRequests =
        [{ fileID := some fid, beginIdx := 0, size := 5000 },
         { fileID := some fid, beginIdx := 5000, size := 5000 },
         { fileID := some fid, beginIdx := 10000, size := 5000 },
         { fileID := some fid, beginIdx := 15000, size := 5000 }] ∧
      (get_report_data (some tok) dir rp tsp uid (mkRunResp fid)
          ([mkChunkResp (some d0) ("0"), mkChunkResp (some d1) ("5000"),
            mkChunkResp (some d2) ("10000"), mkChunkResp (some d3) ("-1")] ++ rest)).file =
        some (b0 ++ b1 ++ b2 ++ b3) ∧
      (get_report_data (some tok) dir rp tsp uid (mkRunResp fid)
          ([mkChunkResp (some d0) ("0"), mkChunkResp (some d1) ("5000"),
            mkChunkResp (some d2) ("10000"), mkChunkResp (some d3) ("-1")] ++ rest)).result =
        some (.ok (generate_output_filename dir rp tsp uid))) ∧
    (∀ (tok : String) (fid : Option String)
       (items : List (Option String × String × Int)) (b : Nat) (first : Bool)
       (file : Option (List Nat)) (rows : Nat),
      (∀ it ∈ items, goodChunkItem it) →
      (downloadLoop (some tok) fid (mkChunkResps items) b first file rows).requests =
        (List.range (consumedCount (items.map fun it => it.2.2))).map
          (fun i => { fileID := fid, beginIdx := b + 5000 * i, size := 5000 }) ∧
      ((downloadLoop (some tok) fid (mkChunkResps items) b first file rows).outcome =
          some (.ok ()) ↔
        (items.map fun it => it.2.2).any (fun o => decide (o = -1)) = true)) := by
  constructor
  · intro tok fid rp dir tsp uid d0 d1 d2 d3 b0 b1 b2 b3 rest
      hne0 hd0 hne1 hd1 hne2 hd2 hne3 hd3
    have h0 : pyIntParse ("0") = some 0 := by decide
    have h5 : pyIntParse ("5000") = some 5000 := by decide
    have h10 : pyIntParse ("10000") = some 10000 := by decide
    have hm1 : pyIntParse ("-1") = some (-1) := by decide
    have efirst : ∀ (l : List ServerResponse),
        downloadLoop (some tok) (some fid)
            (mkChunkResp (some d0) ("0") :: l) 0 true none 0 =
          { requests := { fileID := some fid, beginIdx := 0, size := 5000 } ::
              (downloadLoop (some tok) (some fid) l 5000 false (some b0)
                (0 + countRows b0)).requests
            file := (downloadLoop (some tok) (some fid) l 5000 false (some b0)
              (0 + countRows b0)).file
            totalRows := (downloadLoop (some tok) (some fid) l 5000 false (some b0)
              (0 + countRows b0)).totalRows
            outcome := (downloadLoop (some tok) (some fid) l 5000 false (some b0)
              (0 + countRows b0)).outcome } := by
      intro l
      rw [downloadLoop_cons tok (some fid) (some d0) ("0") 0 l 0 true none 0 _ _ _
        h0 (downloadStep_truthy true none 0 hne0 hd0)]
      rw [if_neg (by decide)]
      rfl
    have eapp : ∀ (d : String) (bL : List Nat), d ≠ ("") → decodeChunk d = some bL →
        ∀ (s : String) (off : Int), pyIntParse s = some off → off ≠ -1 →
        ∀ (l : List ServerResponse) (bo : Nat) (fIn : List Nat) (rv : Nat),
        downloadLoop (some tok) (some fid)
            (mkChunkResp (some d) s :: l) bo false (some fIn) rv =
          { requests := { fileID := some fid, beginIdx := bo, size := 5000 } ::
              (downloadLoop (some tok) (some fid) l (bo + 5000) false
                (some (fIn ++ bL)) (rv + countRows bL)).requests
            file := (downloadLoop (some tok) (some fid) l (bo + 5000) false
              (some (fIn ++ bL)) (rv + countRows bL)).file
            totalRows := (downloadLoop (some tok) (some fid) l (bo + 5000) false
              (some (fIn ++ bL)) (rv + countRows bL)).totalRows
            outcome := (downloadLoop (some tok) (some fid) l (bo + 5000) false
              (some (fIn ++ bL)) (rv + countRows bL)).outcome } := by
      intro d bL hne hd s off hs hoff l bo fIn rv
      rw [downloadLoop_cons tok (some fid) (some d) s off l bo false (some fIn) rv _ _ _
        hs (downloadStep_truthy false (some fIn) rv hne hd)]
      rw [if_neg hoff]
      rfl
    have elast : ∀ (l : List ServerResponse) (bo : Nat) (fIn : List Nat) (rv : Nat),
        downloadLoop (some tok) (some fid)
            (mkChunkResp (some d3) ("-1") :: l) bo false (some fIn) rv =
          { requests := [{ fileID := some fid, beginIdx := bo, size := 5000 }]
            file := some (fIn ++ b3), totalRows := rv + countRows b3
            outcome := some (.ok ()) } := by
      intro l bo fIn rv
      rw [downloadLoop_cons tok (some fid) (some d3) ("-1") (-1) l bo false (some fIn) rv _ _ _
        hm1 (downloadStep_truthy false (some fIn) rv hne3 hd3)]
      rw [if_pos rfl]
      rfl
    have hrun : make_soap_request (some tok) (mkRunResp fid) = .ok (mkRunResp fid).text := rfl
    refine ⟨?_, ?_, ?_⟩ <;>
    · simp only [get_report_data, hrun, parse_mkRunResp, List.cons_append, List.nil_append]
      rw [efirst, eapp d1 b1 hne1 hd1 ("5000") 5000 h5 (by decide),
        eapp d2 b2 hne2 hd2 ("10000") 10000 h10 (by decide), elast]
      all_goals rfl
  · intro tok fid items b first file rows hgood
    obtain ⟨hreq, hout⟩ := downloadLoop_good tok fid items b first file rows hgood
    refine ⟨hreq, ?_⟩
    rw [hout]
    cases hany : (items.map fun it => it.2.2).any (fun o => decide (o = -1)) <;> simp

/-- C1 witness: the scenario with four one-byte chunks (`"eA=="` decodes
to the byte `x`) and a 5th prepared response that is never consumed. -/
theorem get_report_data_chunking_witness :
    (get_report_data (some ("tok")) ("d") ("/X/Y/Report.xdo") ("t") ("u")
        (mkRunResp ("F"))
        ([mkChunkResp (some ("eA==")) ("0"), mkChunkResp (some ("eA==")) ("5000"),
          mkChunkResp (some ("eA==")) ("10000"), mkChunkResp (some ("eA==")) ("-1")] ++
          [mkChunkResp (some ("eA==")) ("0")])).chunkRequests =
      [{ fileID := some ("F"), beginIdx := 0, size := 5000 },
       { fileID := some ("F"), beginIdx := 5000, size := 5000 },
       { fileID := some ("F"), beginIdx := 10000, size := 5000 },
       { fileID := some ("F"), beginIdx := 15000, size := 5000 }] ∧
    (get_report_data (some ("tok")) ("d") ("/X/Y/Report.xdo") ("t") ("u")
        (mkRunResp ("F"))
        ([mkChunkResp (some ("eA==")) ("0"), mkChunkResp (some ("eA==")) ("5000"),
          mkChunkResp (some ("eA==")) ("10000"), mkChunkResp (some ("eA==")) ("-1")] ++
          [mkChunkResp (some ("eA==")) ("0")])).file =
      some ([120] ++ [120] ++ [120] ++ [120]) ∧
    (get_report_data (some ("tok")) ("d") ("/X/Y/Report.xdo") ("t") ("u")
        (mkRunResp ("F"))
        ([mkChunkResp (some ("eA==")) ("0"), mkChunkResp (some ("eA==")) ("5000"),
          mkChunkResp (some ("eA==")) ("10000"), mkChunkResp (some ("eA==")) ("-1")] ++
          [mkChunkResp (some ("eA==")) ("0")])).result =
      some (.ok (generate_output_filename ("d") ("/X/Y/Report.xdo") ("t") ("u"))) :=
  get_report_data_chunking.1 ("tok") ("F") ("/X/Y/Report.xdo") ("d") ("t") ("u")
    ("eA==") ("eA==") ("eA==") ("eA==") [120] [120] [120] [120]
    [mkChunkResp (some ("eA==")) ("0")]
    (by decide) (by decide) (by decide) (by decide)
    (by decide) (by decide) (by decide) (by decide)

/-- C9: when the run-report call succeeds but every chunk response
carries an empty (or absent) data chunk before the −1 offset arrives,
`get_report_data` still returns the generated output file path, yet the
output file is never created or written (its state remains `none`,
because the file is only opened on the first truthy chunk) and no rows
are counted — so the returned path may refer to a non-existent file. -/
theorem get_report_data_empty_chunks (tok fid rp dir tsp uid : String)
    (items : List (Option String × String × Int))
    (hitems : ∀ it ∈ items, pyIntParse it.2.1 = some it.2.2 ∧ chunkTruthy it.1 = false)
    (hneg : (items.map fun it => it.2.2).any (fun o => decide (o = -1)) = true) :
    (get_report_data (some tok) dir rp tsp uid (mkRunResp fid)
        (mkChunkResps items)).result =
      some (.ok (generate_output_filename dir rp tsp uid)) ∧
    (get_report_data (some tok) dir rp tsp uid (mkRunResp fid)
        (mkChunkResps items)).file = none ∧
    (get_report_data (some tok) dir rp tsp uid (mkRunResp fid)
        (mkChunkResps items)).totalRows = 0 := by
  have hgood : ∀ it ∈ items, goodChunkItem it := fun it hx =>
    ⟨(hitems it hx).1, fun hc => by rw [(hitems it hx).2] at hc; cases hc⟩
  obtain ⟨hfile, hrows⟩ := downloadLoop_empty_chunks tok (some fid) items 0 true none 0 hitems
  obtain ⟨-, hout⟩ := downloadLoop_good tok (some fid) items 0 true none 0 hgood
  rw [hneg, if_pos rfl] at hout
  have hrun : make_soap_request (some tok) (mkRunResp fid) = .ok (mkRunResp fid).text := rfl
  refine ⟨?_, ?_, ?_⟩ <;>
    simp only [get_report_data, hrun, parse_mkRunResp, hout, hfile, hrows, Option.map_some]
  rfl

/-- C9 witness: an absent chunk at offset 0 and an empty-string chunk on
the terminal −1 response. -/
theorem get_report_data_empty_chunks_witness :
    (get_report_data (some ("tok")) ("d") ("/X/Y/Report.xdo") ("t") ("u")
        (mkRunResp ("F"))
        (mkChunkResps [(none, ("0"), 0), (some (""), ("-1"), -1)])).result =
      some (.ok (generate_output_filename ("d") ("/X/Y/Report.xdo") ("t") ("u"))) ∧
    (get_report_data (some ("tok")) ("d") ("/X/Y/Report.xdo") ("t") ("u")
        (mkRunResp ("F"))
        (mkChunkResps [(none, ("0"), 0), (some (""), ("-1"), -1)])).file = none ∧
    (get_report_data (some ("tok")) ("d") ("/X/Y/Report.xdo") ("t") ("u")
        (mkRunResp ("F"))
        (mkChunkResps [(none, ("0"), 0), (some (""), ("-1"), -1)])).totalRows = 0 :=
  get_report_data_empty_chunks ("tok") ("F") ("/X/Y/Report.xdo") ("d") ("t") ("u")
    [(none, ("0"), 0), (some (""), ("-1"), -1)] (by decide) (by decide)

theorem soapFailMsg_head (n : Nat) (body : String) :
    (soapFailMsg n body).data.head? = some ('S') := by
  unfold soapFailMsg
  rw [String.data_append, String.data_append, String.data_append]
  rfl

/-- C6: a non-success HTTP status on either SOAP call raises immediately
with the status code and response body text; this aborts the whole
pipeline (error result, and for a failed run no chunk request is ever
issued; a failure mid-download ends the loop with that error); and a
successful response missing the expected XML element raises a
descriptive structural error that is distinct from the transport
error. -/
theorem soap_error_handling :
    (∀ (tok : String) (resp : ServerResponse), resp.status ≠ 200 →
      make_soap_request (some tok) resp = .error (soapFailMsg resp.status resp.text)) ∧
    (∀ (n : Nat) (body : String),
      soapFailMsg n body =
        "SOAP request failed with status " ++ toString n ++ ": " ++ body) ∧
    (∀ x : Xml, x.findDesc ("reportFileID") = none →
      parse_run_report_response x = .error runParseErrMsg) ∧
    (∀ x : Xml, x.findDesc ("reportDataChunk") = none ∨
        x.findDesc ("reportDataOffset") = none →
      parse_download_chunk_response x = .error chunkParseErrMsg) ∧
    (∀ (n : Nat) (body : String),
      soapFailMsg n body ≠ runParseErrMsg ∧ soapFailMsg n body ≠ chunkParseErrMsg) ∧
    (∀ (tok dir rp tsp uid : String) (runResp : ServerResponse)
       (chunks : List ServerResponse), runResp.status ≠ 200 →
      (get_report_data (some tok) dir rp tsp uid runResp chunks).result =
        some (.error (soapFailMsg runResp.status runResp.text)) ∧
      (get_report_data (some tok) dir rp tsp uid runResp chunks).chunkRequests = []) ∧
    (∀ (tok : String) (fid : Option String)
       (items : List (Option String × String × Int)) (bad : ServerResponse)
       (rest : List ServerResponse) (b : Nat) (first : Bool)
       (file : Option (List Nat)) (rows : Nat),
      (∀ it ∈ items, goodChunkItem it) → (∀ it ∈ items, it.2.2 ≠ -1) →
      bad.status ≠ 200 →
      (downloadLoop (some tok) fid (mkChunkResps items ++ bad :: rest)
          b first file rows).outcome =
        some (.error (soapFailMsg bad.status bad.text))) := by
  refine ⟨?_, ?_, ?_, ?_, ?_, ?_, ?_⟩
  · intro tok resp h
    simp [make_soap_request, h]
  · intro n body
    rfl
  · intro x h
    simp [parse_run_report_response, h]
  · intro x h
    rcases h with h | h
    · cases ho : x.findDesc ("reportDataOffset") <;>
        simp [parse_download_chunk_response, h, ho]
    · cases hc : x.findDesc ("reportDataChunk") <;>
        simp [parse_download_chunk_response, h, hc]
  · intro n body
    constructor <;>
    · intro heq
      have h1 := soapFailMsg_head n body
      rw [heq] at h1
      exact absurd h1 (by decide)
  · intro tok dir rp tsp uid runResp chunks h
    have hm : make_soap_request (some tok) runResp =
        .error (soapFailMsg runResp.status runResp.text) := by
      simp [make_soap_request, h]
    refine ⟨?_, ?_⟩ <;> simp only [get_report_data, hm]
  · intro tok fid items bad rest b first file rows hgood hneg h
    obtain ⟨b2, fc2, f2, r2, happ⟩ :=
      downloadLoop_append_outcome tok fid items (bad :: rest) b first file rows hgood hneg
    rw [happ, downloadLoop]
    rw [if_pos h]

/-- C6 witness: a 500 response with body `boom`, an empty XML document
for both parse failures, a failed run aborting with no chunk requests,
and a mid-download 500 aborting the loop after one good chunk. -/
theorem soap_error_handling_witness :
    make_soap_request (some ("t")) ⟨500, ("boom"), Xml.elem ("e") none []⟩ =
      .error (soapFailMsg 500 ("boom")) ∧
    soapFailMsg 500 ("boom") =
      "SOAP request failed with status " ++ toString 500 ++ ": " ++ ("boom") ∧
    parse_run_report_response (Xml.elem ("e") none []) = .error runParseErrMsg ∧
    parse_download_chunk_response (Xml.elem ("e") none []) = .error chunkParseErrMsg ∧
    (soapFailMsg 500 ("boom") ≠ runParseErrMsg ∧
      soapFailMsg 500 ("boom") ≠ chunkParseErrMsg) ∧
    ((get_report_data (some ("t")) ("d") ("/X/Y/Report.xdo") ("ts") ("u")
        ⟨500, ("boom"), Xml.elem ("e") none []⟩ []).result =
      some (.error (soapFailMsg 500 ("boom"))) ∧
     (get_report_data (some ("t")) ("d") ("/X/Y/Report.xdo") ("ts") ("u")
        ⟨500, ("boom"), Xml.elem ("e") none []⟩ []).chunkRequests = []) ∧
    (downloadLoop (some ("t")) (some ("F"))
        (mkChunkResps [(some ("eA=="), ("0"), 0)] ++
          [⟨500, ("boom"), Xml.elem ("e") none []⟩]) 0 true none 0).outcome =
      some (.error (soapFailMsg 500 ("boom"))) :=
  ⟨soap_error_handling.1 ("t") ⟨500, ("boom"), Xml.elem ("e") none []⟩ (by decide),
   soap_error_handling.2.1 500 ("boom"),
   soap_error_handling.2.2.1 (Xml.elem ("e") none [])
     (by simp [Xml.findDesc, Xml.children, findDescList]),
   soap_error_handling.2.2.2.1 (Xml.elem ("e") none [])
     (Or.inl (by simp [Xml.findDesc, Xml.children, findDescList])),
   soap_error_handling.2.2.2.2.1 500 ("boom"),
   soap_error_handling.2.2.2.2.2.1 ("t") ("d") ("/X/Y/Report.xdo") ("ts") ("u")
     ⟨500, ("boom"), Xml.elem ("e") none []⟩ [] (by decide),
   soap_error_handling.2.2.2.2.2.2 ("t") (some ("F")) [(some ("eA=="), ("0"), 0)]
     ⟨500, ("boom"), Xml.elem ("e") none []⟩ [] 0 true none 0
     (by decide) (by decide) (by decide)⟩

end OracleSCM
